import Mathlib

/-!
Shallow embedding of the equivariant-CNN core described by this repository's
specification.  The repository's own source (`equiv.py`) is a fifteen-line
usage script; the components it invokes (GroupSpace, FieldType,
BasisKernelBuilder, EquivariantConv, EquivariantReLU) have no implementation
under `src/`, so every component below is modelled from the specification's
words and the claims are settled against these models.  Numeric data is
embedded as rational numbers (the idealisation of the floating-point
substrate).
-/

/-- Modelled from the spec: a `GroupSpace` owns the group order `N` (rotations
by multiples of 2*pi/N).  The `uid` field embeds reference identity, which is
missing from a pure value model: the spec makes FieldType compatibility depend
on GroupSpace *instance* identity, not structure, so each constructed instance
carries a distinct token. -/
structure GroupSpace where
  uid : ℕ
  N : ℕ
deriving DecidableEq

/-- Modelled from the spec: group composition is addition mod `N`. -/
def GroupSpace.compose (G : GroupSpace) (a b : ℕ) : ℕ := (a + b) % G.N

/-- Modelled from the spec: group inverse is negation mod `N`. -/
def GroupSpace.inverse (G : GroupSpace) (a : ℕ) : ℕ := (G.N - a % G.N) % G.N

/-- Modelled from the spec: the ordered sequence of group elements `0..N-1`. -/
def GroupSpace.elements (G : GroupSpace) : List ℕ := List.range G.N

/-- Modelled from the spec: the closed set of supported representation kinds,
a tagged variant over Trivial and Regular. -/
inductive RepKind where
  | trivial
  | regular
deriving DecidableEq

/-- Modelled from the spec: the dimension of one representation block —
Trivial has dimension 1, Regular has dimension `N`. -/
@[reducible] def RepKind.dim (N : ℕ) : RepKind → ℕ
  | .trivial => 1
  | .regular => N

/-- Modelled from the spec: a FieldType owns a reference to a GroupSpace and
an ordered sequence of representation tags, one per channel block. -/
structure FieldType where
  space : GroupSpace
  blocks : List RepKind
deriving DecidableEq

/-- Modelled from the spec: total channel count of a FieldType (sum of the
block dimensions). -/
def FieldType.size (ft : FieldType) : ℕ :=
  (ft.blocks.map (RepKind.dim ft.space.N)).sum

/-- Modelled from the spec: FieldType compatibility.  The spec requires
identical GroupSpace identity (here: equality of the GroupSpace value,
including its instance token) and the identical block sequence in order. -/
def FieldType.compatible (a b : FieldType) : Prop :=
  a.space = b.space ∧ a.blocks = b.blocks

instance (a b : FieldType) : Decidable (a.compatible b) :=
  inferInstanceAs (Decidable (_ ∧ _))

/-- Modelled from the spec: construction-time error taxonomy
(ConfigurationError). -/
inductive ConfigurationError where
  | UnsupportedRepresentation
  | InvalidBiasConfiguration
deriving DecidableEq

/-- Modelled from the spec: forward-time error taxonomy
(ShapeMismatchError). -/
inductive ShapeMismatchError where
  | FieldTypeMismatch
  | KernelTooLarge
deriving DecidableEq

/-- Modelled from the spec: the external tensor substrate, embedded as a dense
batch-by-channel-by-height-by-width array of rationals.  Reads outside the
recorded bounds are irrelevant to every claim. -/
structure Tensor4 where
  batch : ℕ
  channels : ℕ
  height : ℕ
  width : ℕ
  data : ℕ → ℕ → ℕ → ℕ → ℚ

/-- Modelled from the spec: a tensor tagged with the FieldType describing its
channel layout. -/
structure TypedTensor where
  type : FieldType
  tensor : Tensor4

/-- Modelled from the spec: attaching a FieldType to a plain tensor (the
script's `feat_type_in(x)`): succeeds exactly when the channel count matches
the FieldType's size, and wraps the tensor unchanged. -/
def fieldTypeApply (ft : FieldType) (x : Tensor4) : Except ShapeMismatchError TypedTensor :=
  if x.channels = ft.size then Except.ok ⟨ft, x⟩
  else Except.error ShapeMismatchError.FieldTypeMismatch

/-- Modelled from the spec: the squared radii realised by the centered
`k × k` pixel grid (spec section 4.3 step 1: the spatial support decomposes
into concentric rings, radius being an invariant of the rotation action). -/
def radiiSet (k : ℕ) : Finset ℤ :=
  Finset.image
    (fun p : Fin k × Fin k =>
      ((p.1 : ℤ) - ((k : ℤ) - 1) / 2) * ((p.1 : ℤ) - ((k : ℤ) - 1) / 2)
        + ((p.2 : ℤ) - ((k : ℤ) - 1) / 2) * ((p.2 : ℤ) - ((k : ℤ) - 1) / 2))
    Finset.univ

/-- Modelled from the spec: the number of distinct radii present in the
centered `k × k` grid. -/
def numRadii (k : ℕ) : ℕ := (radiiSet k).card

/-- Modelled from the spec: number of basis kernels BasisKernelBuilder
produces for one (input representation, output representation) pair — one per
ring and per matrix entry of the intertwiner at angle zero. -/
def numBasisPair (N k : ℕ) (rin rout : RepKind) : ℕ :=
  numRadii k * RepKind.dim N rout * RepKind.dim N rin

/-- Modelled from the spec: total basis count over all block pairs of the
input and output FieldTypes. -/
def numBasisTotal (tin tout : FieldType) (k : ℕ) : ℕ :=
  (tin.blocks.map fun ri =>
    (tout.blocks.map fun ro => numBasisPair tin.space.N k ri ro).sum).sum

/-- Modelled from the spec: the EquivariantConv layer object.  It stores the
two FieldTypes, the configuration, the cached basis tensor (indexed
basis-element first), the learnable coefficient vector, and the per-trivial-
block bias scalars. -/
structure EquivariantConv where
  input_type : FieldType
  output_type : FieldType
  kernel_size : ℕ
  stride : ℕ
  padding : ℕ
  bias : Bool
  nbasis : ℕ
  basis : ℕ → ℕ → ℕ → ℕ → ℕ → ℚ
  coefficients : ℕ → ℚ
  biasCount : ℕ
  biasParams : ℕ → ℚ

/-- Modelled from the spec: EquivariantConv construction.  Validation happens
here, at construction time: an even kernel size fails with
`UnsupportedRepresentation`, and requesting bias on an output FieldType with
any non-Trivial block fails with `InvalidBiasConfiguration`.  The sampled
basis tensor and the fresh coefficient/bias initialisations are supplied by
the surrounding framework (the spec's external tensor substrate). -/
def mkEquivariantConv (tin tout : FieldType) (kernel_size stride padding : ℕ) (bias : Bool)
    (basis : ℕ → ℕ → ℕ → ℕ → ℕ → ℚ) (coefficients : ℕ → ℚ) (biasInit : ℕ → ℚ) :
    Except ConfigurationError EquivariantConv :=
  if kernel_size % 2 = 0 then Except.error ConfigurationError.UnsupportedRepresentation
  else if bias = true ∧ ∃ r ∈ tout.blocks, r ≠ RepKind.trivial then
    Except.error ConfigurationError.InvalidBiasConfiguration
  else Except.ok
    ⟨tin, tout, kernel_size, stride, padding, bias,
      numBasisTotal tin tout kernel_size, basis, coefficients,
      if bias then (tout.blocks.filter fun r => decide (r = RepKind.trivial)).length else 0,
      biasInit⟩

/-- Modelled from the spec: the full spatial kernel materialised on demand as
the basis tensor contracted with the coefficient vector along the basis
axis. -/
def EquivariantConv.kernelAt (conv : EquivariantConv) (o c u v : ℕ) : ℚ :=
  ∑ t ∈ Finset.range conv.nbasis, conv.coefficients t * conv.basis t o c u v

/-- Modelled from the spec: symmetric zero padding read — a padded view of the
input tensor. -/
def padAt (x : Tensor4) (p n c i j : ℕ) : ℚ :=
  if p ≤ i ∧ i < x.height + p ∧ p ≤ j ∧ j < x.width + p then x.data n c (i - p) (j - p)
  else 0

/-- Modelled from the spec: the bias contribution of one output channel:
walking the block list, Trivial blocks consume one channel and one bias
scalar, Regular blocks consume `N` channels and contribute no bias. -/
def channelBias (N : ℕ) (params : ℕ → ℚ) : List RepKind → ℕ → ℕ → ℚ
  | [], _, _ => 0
  | RepKind.trivial :: bs, t, c =>
      if c < 1 then params t else channelBias N params bs (t + 1) (c - 1)
  | RepKind.regular :: bs, t, c =>
      if c < N then 0 else channelBias N params bs t (c - N)

/-- Modelled from the spec: the result of one forward pass.  The channel
count is checked first (FieldTypeMismatch), then the spatial extent
(KernelTooLarge); only then is the cross-correlation of the materialised
kernel with the padded input computed, with the standard output-size
formula. -/
def EquivariantConv.forwardResult (conv : EquivariantConv) (x : Tensor4) :
    Except ShapeMismatchError Tensor4 :=
  if x.channels ≠ conv.input_type.size then
    Except.error ShapeMismatchError.FieldTypeMismatch
  else if x.height + 2 * conv.padding < conv.kernel_size
      ∨ x.width + 2 * conv.padding < conv.kernel_size then
    Except.error ShapeMismatchError.KernelTooLarge
  else Except.ok
    ⟨x.batch, conv.output_type.size,
      (x.height + 2 * conv.padding - conv.kernel_size) / conv.stride + 1,
      (x.width + 2 * conv.padding - conv.kernel_size) / conv.stride + 1,
      fun n o i j =>
        (∑ c ∈ Finset.range conv.input_type.size,
          ∑ u ∈ Finset.range conv.kernel_size,
            ∑ v ∈ Finset.range conv.kernel_size,
              conv.kernelAt o c u v *
                padAt x conv.padding n c (i * conv.stride + u) (j * conv.stride + v))
          + (if conv.bias then
              channelBias conv.output_type.space.N conv.biasParams conv.output_type.blocks 0 o
            else 0)⟩

/-- Modelled from the spec: the forward method.  The first component is the
layer state after the call (the embedding of the method's receiver, which the
spec requires to be untouched), the second the produced value. -/
def EquivariantConv.forward (conv : EquivariantConv) (x : Tensor4) :
    EquivariantConv × Except ShapeMismatchError Tensor4 :=
  (conv, conv.forwardResult x)

/-- Modelled from the spec: the EquivariantReLU layer, constructed from a
single FieldType (input type = output type). -/
structure EquivariantReLU where
  type : FieldType

/-- Modelled from the spec: elementwise rectification max(0, x). -/
def rectify (x : Tensor4) : Tensor4 :=
  ⟨x.batch, x.channels, x.height, x.width, fun n c i j => max 0 (x.data n c i j)⟩

/-- Modelled from the spec: EquivariantReLU forward — a shape check followed
by elementwise rectification. -/
def EquivariantReLU.forward (layer : EquivariantReLU) (x : Tensor4) :
    Except ShapeMismatchError Tensor4 :=
  if x.channels ≠ layer.type.size then Except.error ShapeMismatchError.FieldTypeMismatch
  else Except.ok (rectify x)

/-- Modelled from the spec: the channel re-indexing induced by a group
element on an ordered block list — Trivial blocks are fixed, each Regular
block's `N` sub-channels are cyclically shifted by the element (the regular
representation's permutation action). -/
def actChannel (N g : ℕ) : List RepKind → ℕ → ℕ
  | [], c => c
  | RepKind.trivial :: bs, c => if c < 1 then c else 1 + actChannel N g bs (c - 1)
  | RepKind.regular :: bs, c => if c < N then (c + g) % N else N + actChannel N g bs (c - N)

/-- Modelled from the spec: the action of a group element on a typed tensor:
the spatial rotation enters through a re-indexing `σ` of the spatial
coordinates (for the commutation law below only the fact that it re-indexes
positions matters), and channels are transformed per block by each block's
representation. -/
def rotateTyped (ft : FieldType) (g : ℕ) (σ : ℕ × ℕ → ℕ × ℕ) (x : Tensor4) : Tensor4 :=
  ⟨x.batch, x.channels, x.height, x.width,
    fun n c i j =>
      x.data n (actChannel ft.space.N g ft.blocks c) (σ (i, j)).1 (σ (i, j)).2⟩

/-- Modelled from the spec: the index set of one representation block's
channels, `ZMod` of the block dimension (one channel for Trivial, the group
itself for Regular). -/
abbrev RepKind.Idx (N : ℕ) (r : RepKind) : Type := ZMod (r.dim N)

instance (N : ℕ) [NeZero N] (r : RepKind) : NeZero (RepKind.dim N r) :=
  match r with
  | .trivial => ⟨one_ne_zero⟩
  | .regular => ⟨NeZero.ne N⟩

/-- Modelled from the spec: how a group element permutes the channel indices
of one block — the identity on a Trivial block, the cyclic shift (the
group's own left action) on a Regular block. -/
def RepKind.act (N : ℕ) (r : RepKind) (g : ZMod N) : RepKind.Idx N r → RepKind.Idx N r :=
  match r with
  | .trivial => fun a => a
  | .regular => fun a => a + g

/-- Modelled from the spec: the equivariance constraint on a kernel for one
(input block, output block) pair, in the per-ring angular domain.  The
spatial support decomposes into rings `R`; on each ring the rotation group
acts on the polar angle, and by the spec's aliasing argument (section 4.3
step 2: frequencies collapse mod `N`) the angular profile lives on `ZMod N`.
A kernel is equivariant when rotating the angle by `g` and transforming the
input/output indices by the representations leaves it unchanged. -/
def IsEquivariantKernel (N : ℕ) (R : Type) (rin rout : RepKind)
    (K : R → ZMod N → RepKind.Idx N rout → RepKind.Idx N rin → ℚ) : Prop :=
  ∀ g r θ o i,
    K r (θ + g) (RepKind.act N rout g o) (RepKind.act N rin g i) = K r θ o i

/-- Modelled from the spec: one BasisElement produced by BasisKernelBuilder,
indexed by its ring and by the matrix entry of the intertwiner at angle
zero; its value at angle `θ` is the entry transported by the representation
action (the orbit of a matrix unit under the constraint). -/
def basisElem (N : ℕ) (R : Type) [DecidableEq R] (rin rout : RepKind)
    (t : R × RepKind.Idx N rout × RepKind.Idx N rin) :
    R → ZMod N → RepKind.Idx N rout → RepKind.Idx N rin → ℚ :=
  fun r θ o i =>
    if r = t.1 ∧ o = RepKind.act N rout θ t.2.1 ∧ i = RepKind.act N rin θ t.2.2 then 1
    else 0

/-- Modelled from the spec: the linear combination rule mapping free
coefficients to a full kernel — one real coefficient per BasisElement. -/
def linComb (N : ℕ) [NeZero N] (R : Type) [Fintype R] [DecidableEq R] (rin rout : RepKind)
    (c : R × RepKind.Idx N rout × RepKind.Idx N rin → ℚ) :
    R → ZMod N → RepKind.Idx N rout → RepKind.Idx N rin → ℚ :=
  fun r θ o i =>
    ∑ t : R × RepKind.Idx N rout × RepKind.Idx N rin,
      c t * basisElem N R rin rout t r θ o i

/-- The usage script's group space, `rot2dOnR2(N=8)`. -/
def r2_act : GroupSpace := ⟨0, 8⟩

/-- The usage script's input FieldType: three Trivial blocks. -/
def feat_type_in : FieldType := ⟨r2_act, List.replicate 3 RepKind.trivial⟩

/-- The usage script's output FieldType: ten Regular blocks. -/
def feat_type_out : FieldType := ⟨r2_act, List.replicate 10 RepKind.regular⟩

/-- The identity on a block index is the action of the neutral element. -/
theorem RepKind.act_zero (N : ℕ) (r : RepKind) (a : RepKind.Idx N r) :
    RepKind.act N r 0 a = a := by
  cases r <;> simp [RepKind.act]

/-- Composing two block-index actions adds the group elements. -/
theorem RepKind.act_act (N : ℕ) (r : RepKind) (g h : ZMod N) (a : RepKind.Idx N r) :
    RepKind.act N r g (RepKind.act N r h a) = RepKind.act N r (h + g) a := by
  cases r
  · rfl
  · show a + h + g = a + (h + g)
    rw [add_assoc]

/-- Claim C5: constructing an EquivariantConv with an even kernel size fails
at construction time with the `UnsupportedRepresentation` configuration
error, regardless of all other arguments. -/
theorem even_kernel_size_rejected (tin tout : FieldType) (k s p : ℕ) (bias : Bool)
    (basis : ℕ → ℕ → ℕ → ℕ → ℕ → ℚ) (coefficients biasInit : ℕ → ℚ)
    (hk : k % 2 = 0) :
    mkEquivariantConv tin tout k s p bias basis coefficients biasInit
      = Except.error ConfigurationError.UnsupportedRepresentation := by
  unfold mkEquivariantConv
  rw [if_pos hk]

/-- Witness for C5 at the concrete even kernel size 4 of the spec's example. -/
theorem even_kernel_size_rejected_witness :
    (4 : ℕ) % 2 = 0 ∧
    mkEquivariantConv feat_type_in feat_type_out 4 1 0 false
        (fun _ _ _ _ _ => 0) (fun _ => 0) (fun _ => 0)
      = Except.error ConfigurationError.UnsupportedRepresentation :=
  ⟨by decide,
    even_kernel_size_rejected feat_type_in feat_type_out 4 1 0 false
      (fun _ _ _ _ _ => 0) (fun _ => 0) (fun _ => 0) (by decide)⟩

/-- Claim C6: with a valid (odd) kernel size, requesting bias on an output
FieldType containing any non-Trivial block fails at construction time with
`InvalidBiasConfiguration`; with an all-Trivial output FieldType the
construction succeeds and stores one learnable bias scalar per Trivial
output block. -/
theorem bias_restriction :
    (∀ (tin tout : FieldType) (k s p : ℕ) (basis : ℕ → ℕ → ℕ → ℕ → ℕ → ℚ)
        (coefficients biasInit : ℕ → ℚ), k % 2 = 1 →
      (∃ r ∈ tout.blocks, r ≠ RepKind.trivial) →
      mkEquivariantConv tin tout k s p true basis coefficients biasInit
        = Except.error ConfigurationError.InvalidBiasConfiguration)
  ∧ (∀ (tin tout : FieldType) (k s p : ℕ) (basis : ℕ → ℕ → ℕ → ℕ → ℕ → ℚ)
        (coefficients biasInit : ℕ → ℚ), k % 2 = 1 →
      (∀ r ∈ tout.blocks, r = RepKind.trivial) →
      ∃ conv,
        mkEquivariantConv tin tout k s p true basis coefficients biasInit
          = Except.ok conv ∧
        conv.biasCount = tout.blocks.length) := by
  constructor
  · intro tin tout k s p basis coefficients biasInit hk hex
    unfold mkEquivariantConv
    rw [if_neg (by omega), if_pos ⟨rfl, hex⟩]
  · intro tin tout k s p basis coefficients biasInit hk hall
    unfold mkEquivariantConv
    rw [if_neg (by omega), if_neg (by
      rintro ⟨-, r, hr, hne⟩
      exact hne (hall r hr))]
    refine ⟨_, rfl, ?_⟩
    show (if true then (tout.blocks.filter fun r => decide (r = RepKind.trivial)).length
      else 0) = tout.blocks.length
    rw [if_pos rfl]
    congr 1
    exact List.filter_eq_self.mpr fun a ha => by rw [hall a ha]; decide

/-- Witness for C6 at the script's output FieldType (ten Regular blocks). -/
theorem bias_restriction_witness :
    (5 : ℕ) % 2 = 1 ∧ (∃ r ∈ feat_type_out.blocks, r ≠ RepKind.trivial) ∧
    mkEquivariantConv feat_type_in feat_type_out 5 1 0 true
        (fun _ _ _ _ _ => 0) (fun _ => 0) (fun _ => 0)
      = Except.error ConfigurationError.InvalidBiasConfiguration :=
  ⟨by decide, by decide,
    bias_restriction.1 feat_type_in feat_type_out 5 1 0
      (fun _ _ _ _ _ => 0) (fun _ => 0) (fun _ => 0) (by decide) (by decide)⟩

/-- Claim C7: a forward pass on an input whose channel count differs from the
input FieldType's size fails with `FieldTypeMismatch`; it is the first check
of `forward`, so no numeric work is reached. -/
theorem forward_channel_mismatch (conv : EquivariantConv) (x : Tensor4)
    (h : x.channels ≠ conv.input_type.size) :
    (conv.forward x).2 = Except.error ShapeMismatchError.FieldTypeMismatch := by
  show conv.forwardResult x = _
  unfold EquivariantConv.forwardResult
  rw [if_pos h]

/-- Witness for C7: a 4-channel input against the script's 3-channel input
FieldType. -/
theorem forward_channel_mismatch_witness :
    (⟨16, 4, 32, 32, fun _ _ _ _ => 0⟩ : Tensor4).channels
        ≠ (⟨feat_type_in, feat_type_out, 5, 1, 0, false, 0,
            fun _ _ _ _ _ => 0, fun _ => 0, 0, fun _ => 0⟩ :
              EquivariantConv).input_type.size ∧
    ((⟨feat_type_in, feat_type_out, 5, 1, 0, false, 0,
        fun _ _ _ _ _ => 0, fun _ => 0, 0, fun _ => 0⟩ :
          EquivariantConv).forward ⟨16, 4, 32, 32, fun _ _ _ _ => 0⟩).2
      = Except.error ShapeMismatchError.FieldTypeMismatch :=
  ⟨by decide, forward_channel_mismatch _ _ (by decide)⟩

/-- Claim C8: FieldType compatibility requires GroupSpace instance identity:
compatible FieldTypes have the identical GroupSpace instance and identical
block sequences, and two structurally equal FieldTypes over distinct
GroupSpace instances are not compatible. -/
theorem fieldType_compatibility :
    (∀ a b : FieldType, a.compatible b → a.space.uid = b.space.uid ∧ a.blocks = b.blocks)
  ∧ (∀ a b : FieldType, a.space.N = b.space.N → a.blocks = b.blocks →
      a.space.uid ≠ b.space.uid → ¬ a.compatible b) := by
  constructor
  · rintro a b ⟨hs, hb⟩
    exact ⟨by rw [hs], hb⟩
  · rintro a b - - huid ⟨hs, -⟩
    exact huid (by rw [hs])

/-- Witness for C8: two FieldTypes with the same order 8 and the same single
Regular block but distinct GroupSpace instance tokens are not compatible. -/
theorem fieldType_compatibility_witness :
    (⟨⟨0, 8⟩, [RepKind.regular]⟩ : FieldType).space.N
        = (⟨⟨1, 8⟩, [RepKind.regular]⟩ : FieldType).space.N ∧
    ¬ FieldType.compatible ⟨⟨0, 8⟩, [RepKind.regular]⟩ ⟨⟨1, 8⟩, [RepKind.regular]⟩ :=
  ⟨rfl, fieldType_compatibility.2 _ _ rfl rfl (by decide)⟩

/-- Claim C9: the forward pass of EquivariantConv has no side effects on the
layer: the coefficient vector and the cached basis tensor after the call are
the ones before the call, and in fact the whole layer state is unchanged. -/
theorem forward_preserves_state (conv : EquivariantConv) (x : Tensor4) :
    (conv.forward x).1.coefficients = conv.coefficients ∧
    (conv.forward x).1.basis = conv.basis ∧
    (conv.forward x).1 = conv :=
  ⟨rfl, rfl, rfl⟩

/-- Claim C10: attaching a FieldType to a plain tensor with matching channel
count succeeds and wraps exactly the input tensor, data unchanged. -/
theorem attach_value_preserving (ft : FieldType) (x : Tensor4)
    (h : x.channels = ft.size) :
    fieldTypeApply ft x = Except.ok ⟨ft, x⟩ ∧
    (⟨ft, x⟩ : TypedTensor).tensor.data = x.data := by
  refine ⟨?_, rfl⟩
  unfold fieldTypeApply
  rw [if_pos h]

/-- Witness for C10: the script's `feat_type_in(x)` on a 16 by 3 by 32 by 32
tensor. -/
theorem attach_value_preserving_witness :
    (⟨16, 3, 32, 32, fun _ _ _ _ => 0⟩ : Tensor4).channels = feat_type_in.size ∧
    fieldTypeApply feat_type_in ⟨16, 3, 32, 32, fun _ _ _ _ => 0⟩
      = Except.ok ⟨feat_type_in, ⟨16, 3, 32, 32, fun _ _ _ _ => 0⟩⟩ :=
  ⟨by decide, (attach_value_preserving feat_type_in _ (by decide)).1⟩

/-- Claim C3: EquivariantReLU commutes exactly with the group action on a
typed tensor — transforming channels per block representation and
re-indexing spatial positions, then rectifying, equals rectifying first and
transforming after, because elementwise max(0, x) commutes with any
re-indexing of entries. -/
theorem relu_commutes_with_rotation (layer : EquivariantReLU) (g : ℕ)
    (σ : ℕ × ℕ → ℕ × ℕ) (x : Tensor4) :
    layer.forward (rotateTyped layer.type g σ x)
      = Except.map (rotateTyped layer.type g σ) (layer.forward x) := by
  unfold EquivariantReLU.forward
  have hch : (rotateTyped layer.type g σ x).channels = x.channels := rfl
  rw [hch]
  by_cases h : x.channels = layer.type.size
  · rw [if_neg (not_not_intro h), if_neg (not_not_intro h)]
    rfl
  · rw [if_pos h, if_pos h]
    rfl

/-- Claim C2: an EquivariantConv built from the script's FieldTypes (three
Trivial input blocks, ten Regular output blocks under N = 8) with kernel
size 5 maps any 16 by 3 by 32 by 32 input to a 16 by 80 by H by W output,
H and W given by the standard convolution output-size formula from the
kernel size, stride and padding. -/
theorem conv_shape_contract (s p : ℕ) (basis : ℕ → ℕ → ℕ → ℕ → ℕ → ℚ)
    (coefficients biasInit : ℕ → ℚ) (x : Tensor4)
    (hs : 1 ≤ s) (hb : x.batch = 16) (hc : x.channels = 3)
    (hh : x.height = 32) (hw : x.width = 32) :
    ∃ conv y,
      mkEquivariantConv feat_type_in feat_type_out 5 s p false basis coefficients biasInit
          = Except.ok conv ∧
      (conv.forward x).2 = Except.ok y ∧
      y.batch = 16 ∧ y.channels = 80 ∧
      y.height = (32 + 2 * p - 5) / s + 1 ∧ y.width = (32 + 2 * p - 5) / s + 1 := by
  obtain ⟨xb, xc, xh, xw, xd⟩ := x
  obtain rfl : xb = 16 := hb
  obtain rfl : xc = 3 := hc
  obtain rfl : xh = 32 := hh
  obtain rfl : xw = 32 := hw
  have hfwd : ∃ y, ((⟨feat_type_in, feat_type_out, 5, s, p, false,
      numBasisTotal feat_type_in feat_type_out 5, basis, coefficients, 0,
      biasInit⟩ : EquivariantConv).forward ⟨16, 3, 32, 32, xd⟩).2 = Except.ok y ∧
      y.batch = 16 ∧ y.channels = 80 ∧ y.height = (32 + 2 * p - 5) / s + 1 ∧
      y.width = (32 + 2 * p - 5) / s + 1 := by
    unfold EquivariantConv.forward EquivariantConv.forwardResult
    dsimp only
    rw [if_neg (by decide), if_neg (by omega)]
    exact ⟨_, rfl, rfl, (by decide : FieldType.size feat_type_out = 80), rfl, rfl⟩
  obtain ⟨y, hy⟩ := hfwd
  exact ⟨_, y, rfl, hy⟩

/-- Witness for C2 at stride 1 and padding 0: the output spatial size is
28 by 28. -/
theorem conv_shape_contract_witness :
    ∃ conv y,
      mkEquivariantConv feat_type_in feat_type_out 5 1 0 false
          (fun _ _ _ _ _ => 0) (fun _ => 0) (fun _ => 0) = Except.ok conv ∧
      (conv.forward ⟨16, 3, 32, 32, fun _ _ _ _ => 0⟩).2 = Except.ok y ∧
      y.batch = 16 ∧ y.channels = 80 ∧ y.height = 28 ∧ y.width = 28 := by
  obtain ⟨c, y, h1, h2, h3, h4, h5, h6⟩ :=
    conv_shape_contract 1 0 (fun _ _ _ _ _ => 0) (fun _ => 0) (fun _ => 0)
      ⟨16, 3, 32, 32, fun _ _ _ _ => 0⟩ (by decide) rfl rfl rfl rfl
  refine ⟨c, y, h1, h2, h3, h4, ?_, ?_⟩
  · rw [h5]
  · rw [h6]

/-- A linear combination of basis elements, evaluated: at each (ring, angle,
output index, input index) exactly one basis element is supported, the one
whose seed indices are the given indices transported back to angle zero. -/
theorem linComb_eval (N : ℕ) [NeZero N] (R : Type) [Fintype R] [DecidableEq R]
    (rin rout : RepKind) (c : R × RepKind.Idx N rout × RepKind.Idx N rin → ℚ)
    (r : R) (θ : ZMod N) (o : RepKind.Idx N rout) (i : RepKind.Idx N rin) :
    linComb N R rin rout c r θ o i
      = c (r, RepKind.act N rout (-θ) o, RepKind.act N rin (-θ) i) := by
  have hiff : ∀ t : R × RepKind.Idx N rout × RepKind.Idx N rin,
      (r = t.1 ∧ o = RepKind.act N rout θ t.2.1 ∧ i = RepKind.act N rin θ t.2.2)
        ↔ t = (r, RepKind.act N rout (-θ) o, RepKind.act N rin (-θ) i) := by
    rintro ⟨r1, o1, i1⟩
    simp only [Prod.mk.injEq]
    constructor
    · rintro ⟨h1, h2, h3⟩
      refine ⟨h1.symm, ?_, ?_⟩
      · rw [h2, RepKind.act_act]
        simp [RepKind.act_zero]
      · rw [h3, RepKind.act_act]
        simp [RepKind.act_zero]
    · rintro ⟨h1, h2, h3⟩
      subst h1
      subst h2
      subst h3
      refine ⟨rfl, ?_, ?_⟩
      · rw [RepKind.act_act]
        simp [RepKind.act_zero]
      · rw [RepKind.act_act]
        simp [RepKind.act_zero]
  calc linComb N R rin rout c r θ o i
      = ∑ t : R × RepKind.Idx N rout × RepKind.Idx N rin,
          (if t = (r, RepKind.act N rout (-θ) o, RepKind.act N rin (-θ) i) then c t
          else 0) := by
        unfold linComb basisElem
        refine Finset.sum_congr rfl fun t _ => ?_
        rw [mul_ite, mul_one, mul_zero, if_congr (hiff t) rfl rfl]
    _ = c (r, RepKind.act N rout (-θ) o, RepKind.act N rin (-θ) i) := by
        rw [Finset.sum_ite_eq' Finset.univ _ c]
        simp

/-- Claim C4: for every (input representation, output representation) pair
the BasisElements span exactly the linear space of equivariant kernels (a
kernel satisfies the equivariance constraint iff it is a linear combination
of the basis), the basis elements are linearly independent (so the dimension
equals the basis count), and in particular the Trivial-to-Trivial basis
under N = 8 and kernel size 5 has exactly as many elements as there are
distinct radii in a centered 5 by 5 grid. -/
theorem basis_spans_equivariant_space (N : ℕ) [NeZero N] (R : Type) [Fintype R]
    [DecidableEq R] (rin rout : RepKind) :
    (∀ K, IsEquivariantKernel N R rin rout K ↔ ∃ c, K = linComb N R rin rout c)
  ∧ (∀ c c', linComb N R rin rout c = linComb N R rin rout c' → c = c')
  ∧ Fintype.card
      ({r : ℤ // r ∈ radiiSet 5} × RepKind.Idx 8 RepKind.trivial × RepKind.Idx 8 RepKind.trivial)
      = numRadii 5
  ∧ numBasisPair 8 5 RepKind.trivial RepKind.trivial = numRadii 5 := by
  refine ⟨?_, ?_, ?_, ?_⟩
  · intro K
    constructor
    · intro hK
      refine ⟨fun t => K t.1 0 t.2.1 t.2.2, ?_⟩
      funext r θ o i
      rw [linComb_eval]
      simpa [RepKind.act_act, RepKind.act_zero] using
        hK θ r 0 (RepKind.act N rout (-θ) o) (RepKind.act N rin (-θ) i)
    · rintro ⟨c, rfl⟩
      intro g r θ o i
      rw [linComb_eval, linComb_eval, RepKind.act_act, RepKind.act_act]
      have hg : g + -(θ + g) = -θ := by ring
      rw [hg]
  · intro c c' h
    funext t
    obtain ⟨r, o, i⟩ := t
    have h1 : linComb N R rin rout c r 0 o i = linComb N R rin rout c' r 0 o i := by
      rw [h]
    rw [linComb_eval, linComb_eval] at h1
    simpa [RepKind.act_zero] using h1
  · show Fintype.card ({r : ℤ // r ∈ radiiSet 5} × ZMod 1 × ZMod 1) = numRadii 5
    simp [numRadii, Fintype.card_coe]
  · show numRadii 5 * 1 * 1 = numRadii 5
    rw [mul_one, mul_one]

/-- Witness for C4 at the concrete instance: the Trivial-to-Trivial basis
count for N = 8 and kernel size 5 equals the number of distinct radii in the
5 by 5 grid, which is 6. -/
theorem basis_spans_equivariant_space_witness :
    numBasisPair 8 5 RepKind.trivial RepKind.trivial = numRadii 5 ∧ numRadii 5 = 6 :=
  ⟨(basis_spans_equivariant_space 8 {r : ℤ // r ∈ radiiSet 5}
      RepKind.trivial RepKind.trivial).2.2.2,
    by decide⟩
